import Mathlib

/-!
Verification of the flappy_clone game logic.

The repository's game script defines a configuration record `GAME_CONFIG`,
a validator `validateConfig`, and a `mainState` object with the operations
`update`, `jump`, `hitPipe`, `restartGame`, `addOnePipe` and
`addRowOfPipes`.  This file gives a shallow embedding of those operations:
JS numbers are modelled as `Int`, the duck-typed score value as `JSValue`,
optional engine objects (`this.bird`, `this.pipes`, `this.labelScore`) as
`Option` fields, and the external physics engine's overlap query as an
explicit outcome parameter.  Operations that perform observable engine
calls (restart, timer cancel, pipe-freeze iteration, rotation, overlap
query, spawn) additionally return a trace of events so that ordering
properties can be stated.
-/

namespace Flappy

/-- The configuration record, mirroring the fields of `GAME_CONFIG` in the
source.  Numeric fields are `Int` (JS numbers used integrally). -/
structure Config where
  width : Int
  height : Int
  birdStartX : Int
  birdStartY : Int
  birdGravity : Int
  birdJumpVelocity : Int
  birdMaxAngle : Int
  birdMinAngle : Int
  pipeVelocity : Int
  pipeSpacing : Int
  pipeOffset : Int
  pipeGapMin : Int
  pipeGapMax : Int
  pipeRows : Int
  scoreX : Int
  scoreY : Int
  backgroundColor : String
  updateInterval : Int
deriving DecidableEq

/-- The literal `GAME_CONFIG` constant of the source. -/
def GAME_CONFIG : Config :=
  { width := 400
    height := 490
    birdStartX := 100
    birdStartY := 245
    birdGravity := 1000
    birdJumpVelocity := -350
    birdMaxAngle := 20
    birdMinAngle := -20
    pipeVelocity := -200
    pipeSpacing := 60
    pipeOffset := 10
    pipeGapMin := 1
    pipeGapMax := 5
    pipeRows := 8
    scoreX := 20
    scoreY := 20
    backgroundColor := "#FF6A5E"
    updateInterval := 1500 }

/-- One character of the class `[0-9A-Fa-f]` from the colour regex
`^#[0-9A-Fa-f]\x7b6\x7d$`. -/
def isHexDigit (c : Char) : Bool :=
  if 48 ≤ c.toNat ∧ c.toNat ≤ 57 then true
  else if 65 ≤ c.toNat ∧ c.toNat ≤ 70 then true
  else if 97 ≤ c.toNat ∧ c.toNat ≤ 102 then true
  else false

/-- `colorRegex.test s` for the anchored regex: a literal `#` followed by
exactly six hex digits and nothing else. -/
def colorRegexTest (s : String) : Bool :=
  match s.toList with
  | '#' :: rest => decide (rest.length = 6) && rest.all isHexDigit
  | _ => false

/-- The source's `validateConfig`: four numeric checks then the colour
check, in source order; the first failing check raises its error message,
modelled with `Except`.  On success the source returns `true`. -/
def validateConfig (cfg : Config) : Except String Bool :=
  if cfg.width ≤ 0 ∨ cfg.height ≤ 0 then
    Except.error "Invalid game dimensions"
  else if cfg.birdStartX < 0 ∨ cfg.birdStartY < 0 then
    Except.error "Invalid bird starting position"
  else if cfg.pipeGapMin ≥ cfg.pipeGapMax then
    Except.error "Invalid pipe gap configuration"
  else if cfg.pipeRows < cfg.pipeGapMax then
    Except.error "Invalid pipe row configuration"
  else if ¬ colorRegexTest cfg.backgroundColor then
    Except.error "Invalid background color format"
  else
    Except.ok true

/-- Spec-side predicate: the dimension check passes. -/
def dimsOK (cfg : Config) : Prop := 0 < cfg.width ∧ 0 < cfg.height

/-- Spec-side predicate: the bird start-position check passes. -/
def startOK (cfg : Config) : Prop := 0 ≤ cfg.birdStartX ∧ 0 ≤ cfg.birdStartY

/-- Spec-side predicate: the gap-ordering check passes. -/
def gapOK (cfg : Config) : Prop := cfg.pipeGapMin < cfg.pipeGapMax

/-- Spec-side predicate: the row-count check passes (the source throws
exactly when `pipeRows < pipeGapMax`). -/
def rowsOK (cfg : Config) : Prop := cfg.pipeGapMax ≤ cfg.pipeRows

/-- Spec-side predicate: the colour-format check passes. -/
def colorOK (cfg : Config) : Prop := colorRegexTest cfg.backgroundColor = true

instance (cfg : Config) : Decidable (dimsOK cfg) := by unfold dimsOK; infer_instance
instance (cfg : Config) : Decidable (startOK cfg) := by unfold startOK; infer_instance
instance (cfg : Config) : Decidable (gapOK cfg) := by unfold gapOK; infer_instance
instance (cfg : Config) : Decidable (rowsOK cfg) := by unfold rowsOK; infer_instance
instance (cfg : Config) : Decidable (colorOK cfg) := by unfold colorOK; infer_instance

instance : DecidableEq (Except String Bool) := fun a b =>
  match a, b with
  | Except.ok x, Except.ok y =>
    if h : x = y then Decidable.isTrue (by rw [h]) else Decidable.isFalse (by simp [h])
  | Except.error x, Except.error y =>
    if h : x = y then Decidable.isTrue (by rw [h]) else Decidable.isFalse (by simp [h])
  | Except.ok _, Except.error _ => Decidable.isFalse (by simp)
  | Except.error _, Except.ok _ => Decidable.isFalse (by simp)

/-- The configuration at the row-count boundary: identical to
`GAME_CONFIG` except that `pipeGapMax` is raised to equal `pipeRows`. -/
def cfgRowEq : Config := { GAME_CONFIG with pipeGapMax := 8 }

/-- The bird sprite's mutable fields used by the game logic: rotation
angle, Phaser `alive` flag, Phaser `inWorld` flag, vertical velocity. -/
structure Body where
  angle : Int
  alive : Bool
  inWorld : Bool
  velocityY : Int
deriving DecidableEq

/-- A pooled pipe sprite: position, horizontal velocity, `alive` flag,
presence of a physics body (the `p && p.body` guard in `hitPipe`), and the
two flags set on spawn. -/
structure Pipe where
  x : Int
  y : Int
  velocityX : Int
  alive : Bool
  hasBody : Bool
  checkWorldBounds : Bool
  outOfBoundsKill : Bool
deriving DecidableEq

/-- The duck-typed score slot.  `num n` stands for any JS value whose
`Number` coercion is the integer `n`; `nonNumeric` for any value whose
`Number` coercion is `NaN` (non-numeric string, `undefined`, `NaN`). -/
inductive JSValue where
  | num (n : Int)
  | nonNumeric
deriving DecidableEq

/-- `(Number(v) || 0)` as used in `addRowOfPipes`: a `NaN` coercion gives
`0` (and `0 || 0` is `0`, so mapping `num n` to `n` is exact). -/
def jsOrZero : JSValue → Int
  | JSValue.num n => n
  | JSValue.nonNumeric => 0

/-- The mutable fields of `mainState` that the verified operations touch.
`timerPresent` models truthiness of `this.timer`; `timerScheduled` models
whether the engine still has the spawn event scheduled (cancelled by
`game.time.events.remove`); `restartRequested` models a call to
`game.state.start` having been issued. -/
structure GameState where
  bird : Option Body
  pipes : Option (List Pipe)
  timerPresent : Bool
  timerScheduled : Bool
  score : JSValue
  labelScore : Option String
  restartRequested : Bool
deriving DecidableEq

/-- Observable engine calls made during `update`/`hitPipe`, in call
order. -/
inductive Ev where
  | restart
  | rotate
  | overlapCheck
  | timerCancel
  | freezeIterate
deriving DecidableEq

/-- Outcome of the external `game.physics.arcade.overlap` query: no
overlap, an overlap (the engine then invokes the `hitPipe` callback), or
the collaborator throwing (caught by `update`). -/
inductive OverlapOutcome where
  | noOverlap
  | overlap
  | raises
deriving DecidableEq

/-- `restartGame`: requests `game.state.start` (the actual scene rebuild is
engine work). -/
def restartGame (s : GameState) : GameState :=
  { s with restartRequested := true }

/-- The body of the `forEachAlive` callback in `hitPipe`: an alive pipe
with a physics body gets its horizontal velocity zeroed. -/
def freezePipe (p : Pipe) : Pipe :=
  if p.alive && p.hasBody then { p with velocityX := 0 } else p

/-- `hitPipe`: guard (`!bird || !pipes || bird.alive === false` returns),
then mark the bird dead, cancel the spawn timer if `this.timer` is truthy,
then zero the horizontal velocity of every alive pipe with a body.  The
trace records the timer cancellation and the freeze iteration. -/
def hitPipe (s : GameState) : GameState × List Ev :=
  match s.bird with
  | none => (s, [])
  | some b =>
    match s.pipes with
    | none => (s, [])
    | some ps =>
      if b.alive = false then (s, [])
      else
        let s1 := { s with bird := some { b with alive := false } }
        if s1.timerPresent then
          ({ s1 with timerScheduled := false, pipes := some (ps.map freezePipe) },
           [Ev.timerCancel, Ev.freezeIterate])
        else
          ({ s1 with pipes := some (ps.map freezePipe) }, [Ev.freezeIterate])

/-- `jump`: guard (`!bird || bird.alive === false` returns), then set
vertical velocity to the configured jump impulse.  The rotation tween it
also starts is a cosmetic engine-side animation and is not part of the
state modelled here. -/
def jump (s : GameState) : GameState :=
  match s.bird with
  | none => s
  | some b =>
    if b.alive = false then s
    else { s with bird := some { b with velocityY := GAME_CONFIG.birdJumpVelocity } }

/-- `update`: guard (`!bird || !pipes` returns); if the bird left the
world, restart and return; otherwise advance the rotation angle by 1
clamped to `birdMaxAngle` when below it, then run the overlap query in a
try/catch: an overlap invokes `hitPipe`, a thrown error is caught and
`restartGame` is invoked instead of propagating. -/
def update (ov : OverlapOutcome) (s : GameState) : GameState × List Ev :=
  match s.bird with
  | none => (s, [])
  | some b =>
    match s.pipes with
    | none => (s, [])
    | some _ =>
      if b.inWorld = false then
        (restartGame s, [Ev.restart])
      else
        let s1 :=
          if b.angle < GAME_CONFIG.birdMaxAngle then
            { s with bird := some { b with angle := min (b.angle + 1) GAME_CONFIG.birdMaxAngle } }
          else s
        let rotEvs : List Ev :=
          if b.angle < GAME_CONFIG.birdMaxAngle then [Ev.rotate] else []
        match ov with
        | OverlapOutcome.noOverlap => (s1, rotEvs ++ [Ev.overlapCheck])
        | OverlapOutcome.overlap =>
          ((hitPipe s1).1, rotEvs ++ Ev.overlapCheck :: (hitPipe s1).2)
        | OverlapOutcome.raises =>
          (restartGame s1, rotEvs ++ [Ev.overlapCheck, Ev.restart])

/-- `pipe.reset(x, y)` followed by the spawn-time field assignments in
`addOnePipe` (Phaser `reset` revives the sprite at the given position). -/
def resetPipe (x y : Int) (p : Pipe) : Pipe :=
  { p with x := x, y := y, alive := true,
           velocityX := GAME_CONFIG.pipeVelocity,
           checkWorldBounds := true, outOfBoundsKill := true }

/-- `pipes.getFirstDead()` combined with the spawn assignments: replace
the first dead pipe in the pool by its respawned version, or `none` when
every pipe is alive. -/
def resetFirstDead (x y : Int) : List Pipe → Option (List Pipe)
  | [] => none
  | p :: ps =>
    if p.alive then (resetFirstDead x y ps).map (fun ps2 => p :: ps2)
    else some (resetPipe x y p :: ps)

/-- Number of dead (acquirable) pipes in the pool. -/
def countDead (ps : List Pipe) : Nat :=
  (ps.filter (fun p => !p.alive)).length

/-- `addOnePipe(x, y)`: guard (`!pipes` returns), acquire the first dead
pipe (`!pipe` returns) and respawn it.  The second component reports the
spawn event `(x, y)` when a pipe was actually spawned. -/
def addOnePipe (x y : Int) (s : GameState) : GameState × Option (Int × Int) :=
  match s.pipes with
  | none => (s, none)
  | some ps =>
    match resetFirstDead x y ps with
    | none => (s, none)
    | some ps2 => ({ s with pipes := some ps2 }, some (x, y))

/-- The positions attempted by the spawn loop of `addRowOfPipes` for a
given `hole`: row indices `0 ≤ i < pipeRows` with `i ≠ hole` and
`i ≠ hole + 1`, each at `(width, i * pipeSpacing + pipeOffset)`. -/
def rowPositions (hole : Int) : List (Int × Int) :=
  (List.range GAME_CONFIG.pipeRows.toNat).filterMap (fun (i : Nat) =>
    if (i : Int) ≠ hole ∧ (i : Int) ≠ hole + 1 then
      some (GAME_CONFIG.width, (i : Int) * GAME_CONFIG.pipeSpacing + GAME_CONFIG.pipeOffset)
    else none)

/-- The spawn loop: call `addOnePipe` at each attempted position in order,
collecting the successful spawn events. -/
def spawnMany : List (Int × Int) → GameState → GameState × List (Int × Int)
  | [], s => (s, [])
  | xy :: rest, s =>
    match (addOnePipe xy.1 xy.2 s).2 with
    | some p =>
      ((spawnMany rest (addOnePipe xy.1 xy.2 s).1).1,
       p :: (spawnMany rest (addOnePipe xy.1 xy.2 s).1).2)
    | none => spawnMany rest (addOnePipe xy.1 xy.2 s).1

/-- The state machine of the regex replace `/<[^>]*>?/gm` used by
`sanitizeScore`: in normal mode (`inTag = false`) a `<` starts a match
that consumes every following character up to and including the first `>`
(or the end of the string); everything else is kept. -/
def stripTagsAux : Bool → List Char → List Char
  | _, [] => []
  | true, c :: cs => if c = '>' then stripTagsAux false cs else stripTagsAux true cs
  | false, c :: cs =>
    if c = '<' then stripTagsAux true cs else c :: stripTagsAux false cs

/-- `sanitizeScore`: `String(score)` with tag-like substrings removed. -/
def sanitizeScore (s : String) : String :=
  String.mk (stripTagsAux false s.toList)

/-- `addRowOfPipes`, with the random draw `hole` passed as a parameter
(the source computes it from a timestamp seed; the computation lands in
`[pipeGapMin, pipeGapMax]`): guard (`!labelScore` returns), run the spawn
loop, then set `score` to `(Number(score) || 0) + 1` and the label text to
the sanitized string of the new score. -/
def addRowOfPipes (hole : Int) (s : GameState) : GameState × List (Int × Int) :=
  match s.labelScore with
  | none => (s, [])
  | some _ =>
    ({ (spawnMany (rowPositions hole) s).1 with
        score := JSValue.num (jsOrZero (spawnMany (rowPositions hole) s).1.score + 1)
        labelScore := some (sanitizeScore
          (toString (jsOrZero (spawnMany (rowPositions hole) s).1.score + 1))) },
     (spawnMany (rowPositions hole) s).2)

/-- A bird in its initial create-time situation (angle 0, alive, in
world). -/
def demoBody : Body :=
  { angle := 0, alive := true, inWorld := true, velocityY := 0 }

/-- An alive, moving pooled pipe. -/
def demoPipe : Pipe :=
  { x := 0, y := 0, velocityX := -200, alive := true, hasBody := true,
    checkWorldBounds := true, outOfBoundsKill := true }

/-- A dead pooled pipe awaiting reuse. -/
def deadPipe : Pipe :=
  { demoPipe with alive := false }

/-- A running game state shortly after `create`. -/
def demoState : GameState :=
  { bird := some demoBody
    pipes := some (demoPipe :: List.replicate 6 deadPipe)
    timerPresent := true
    timerScheduled := true
    score := JSValue.num 0
    labelScore := some "0"
    restartRequested := false }

/-! ## Helper lemmas about `validateConfig` -/

theorem validateConfig_err_dims (cfg : Config) (hd : ¬ dimsOK cfg) :
    validateConfig cfg = Except.error "Invalid game dimensions" := by
  have h1 : cfg.width ≤ 0 ∨ cfg.height ≤ 0 := by unfold dimsOK at hd; omega
  simp only [validateConfig]
  rw [if_pos h1]

theorem validateConfig_err_start (cfg : Config) (hd : dimsOK cfg) (hs : ¬ startOK cfg) :
    validateConfig cfg = Except.error "Invalid bird starting position" := by
  have hn1 : ¬ (cfg.width ≤ 0 ∨ cfg.height ≤ 0) := by unfold dimsOK at hd; omega
  have h2 : cfg.birdStartX < 0 ∨ cfg.birdStartY < 0 := by unfold startOK at hs; omega
  simp only [validateConfig]
  rw [if_neg hn1, if_pos h2]

theorem validateConfig_err_gap (cfg : Config) (hd : dimsOK cfg) (hs : startOK cfg)
    (hg : ¬ gapOK cfg) :
    validateConfig cfg = Except.error "Invalid pipe gap configuration" := by
  have hn1 : ¬ (cfg.width ≤ 0 ∨ cfg.height ≤ 0) := by unfold dimsOK at hd; omega
  have hn2 : ¬ (cfg.birdStartX < 0 ∨ cfg.birdStartY < 0) := by unfold startOK at hs; omega
  have h3 : cfg.pipeGapMin ≥ cfg.pipeGapMax := by unfold gapOK at hg; omega
  simp only [validateConfig]
  rw [if_neg hn1, if_neg hn2, if_pos h3]

theorem validateConfig_err_rows (cfg : Config) (hd : dimsOK cfg) (hs : startOK cfg)
    (hg : gapOK cfg) (hr : ¬ rowsOK cfg) :
    validateConfig cfg = Except.error "Invalid pipe row configuration" := by
  have hn1 : ¬ (cfg.width ≤ 0 ∨ cfg.height ≤ 0) := by unfold dimsOK at hd; omega
  have hn2 : ¬ (cfg.birdStartX < 0 ∨ cfg.birdStartY < 0) := by unfold startOK at hs; omega
  have hn3 : ¬ (cfg.pipeGapMin ≥ cfg.pipeGapMax) := by unfold gapOK at hg; omega
  have h4 : cfg.pipeRows < cfg.pipeGapMax := by unfold rowsOK at hr; omega
  simp only [validateConfig]
  rw [if_neg hn1, if_neg hn2, if_neg hn3, if_pos h4]

theorem validateConfig_err_color (cfg : Config) (hd : dimsOK cfg) (hs : startOK cfg)
    (hg : gapOK cfg) (hr : rowsOK cfg) (hc : ¬ colorOK cfg) :
    validateConfig cfg = Except.error "Invalid background color format" := by
  have hn1 : ¬ (cfg.width ≤ 0 ∨ cfg.height ≤ 0) := by unfold dimsOK at hd; omega
  have hn2 : ¬ (cfg.birdStartX < 0 ∨ cfg.birdStartY < 0) := by unfold startOK at hs; omega
  have hn3 : ¬ (cfg.pipeGapMin ≥ cfg.pipeGapMax) := by unfold gapOK at hg; omega
  have hn4 : ¬ (cfg.pipeRows < cfg.pipeGapMax) := by unfold rowsOK at hr; omega
  unfold colorOK at hc
  simp only [validateConfig]
  rw [if_neg hn1, if_neg hn2, if_neg hn3, if_neg hn4, if_pos hc]

theorem validateConfig_all_ok (cfg : Config) (hd : dimsOK cfg) (hs : startOK cfg)
    (hg : gapOK cfg) (hr : rowsOK cfg) (hc : colorOK cfg) :
    validateConfig cfg = Except.ok true := by
  have hn1 : ¬ (cfg.width ≤ 0 ∨ cfg.height ≤ 0) := by unfold dimsOK at hd; omega
  have hn2 : ¬ (cfg.birdStartX < 0 ∨ cfg.birdStartY < 0) := by unfold startOK at hs; omega
  have hn3 : ¬ (cfg.pipeGapMin ≥ cfg.pipeGapMax) := by unfold gapOK at hg; omega
  have hn4 : ¬ (cfg.pipeRows < cfg.pipeGapMax) := by unfold rowsOK at hr; omega
  unfold colorOK at hc
  simp only [validateConfig]
  rw [if_neg hn1, if_neg hn2, if_neg hn3, if_neg hn4, if_neg (not_not_intro hc)]

/-! ## Claim theorems -/

/-- C6 (confirmed): `validateConfig` succeeds exactly on configurations
passing all five checks; each of the five invalid-field classes fails with
its own distinct reason; when several checks fail, the first failing check
in the source order (dimensions, start position, gap ordering, row count,
colour) determines the reported reason.  The function is a pure Lean
function of the configuration, so it is deterministic and its only effect
is the returned error. -/
theorem validateConfig_spec (cfg : Config) :
    (validateConfig cfg = Except.ok true ↔
        dimsOK cfg ∧ startOK cfg ∧ gapOK cfg ∧ rowsOK cfg ∧ colorOK cfg)
    ∧ (¬ dimsOK cfg → validateConfig cfg = Except.error "Invalid game dimensions")
    ∧ (dimsOK cfg → ¬ startOK cfg →
        validateConfig cfg = Except.error "Invalid bird starting position")
    ∧ (dimsOK cfg → startOK cfg → ¬ gapOK cfg →
        validateConfig cfg = Except.error "Invalid pipe gap configuration")
    ∧ (dimsOK cfg → startOK cfg → gapOK cfg → ¬ rowsOK cfg →
        validateConfig cfg = Except.error "Invalid pipe row configuration")
    ∧ (dimsOK cfg → startOK cfg → gapOK cfg → rowsOK cfg → ¬ colorOK cfg →
        validateConfig cfg = Except.error "Invalid background color format") := by
  refine ⟨?_, validateConfig_err_dims cfg, validateConfig_err_start cfg,
    validateConfig_err_gap cfg, validateConfig_err_rows cfg, validateConfig_err_color cfg⟩
  constructor
  · intro h
    by_cases hd : dimsOK cfg
    · by_cases hs : startOK cfg
      · by_cases hg : gapOK cfg
        · by_cases hr : rowsOK cfg
          · by_cases hc : colorOK cfg
            · exact ⟨hd, hs, hg, hr, hc⟩
            · rw [validateConfig_err_color cfg hd hs hg hr hc] at h; exact absurd h (by simp)
          · rw [validateConfig_err_rows cfg hd hs hg hr] at h; exact absurd h (by simp)
        · rw [validateConfig_err_gap cfg hd hs hg] at h; exact absurd h (by simp)
      · rw [validateConfig_err_start cfg hd hs] at h; exact absurd h (by simp)
    · rw [validateConfig_err_dims cfg hd] at h; exact absurd h (by simp)
  · rintro ⟨hd, hs, hg, hr, hc⟩
    exact validateConfig_all_ok cfg hd hs hg hr hc

/-- Witness for `validateConfig_spec`: at the shipped `GAME_CONFIG` with
`width := 0` the first check fails with the dimension reason. -/
theorem validateConfig_spec_witness :
    validateConfig { GAME_CONFIG with width := 0 } = Except.error "Invalid game dimensions" :=
  (validateConfig_spec { GAME_CONFIG with width := 0 }).2.1 (by decide)

/-- C1 (corrected), counterexample: the configuration equal to
`GAME_CONFIG` except `pipeGapMax := 8` passes every other check and has
`pipeRows = pipeGapMax = 8`, yet `validateConfig` succeeds instead of
failing with the pipe-row-configuration reason: the source's row check
`pipeRows < pipeGapMax` does not fire at the boundary. -/
theorem validateConfig_rowEqGap_cex :
    cfgRowEq.pipeRows = cfgRowEq.pipeGapMax
    ∧ dimsOK cfgRowEq ∧ startOK cfgRowEq ∧ gapOK cfgRowEq ∧ colorOK cfgRowEq
    ∧ validateConfig cfgRowEq = Except.ok true
    ∧ validateConfig cfgRowEq ≠ Except.error "Invalid pipe row configuration" := by
  decide

/-- C1 (corrected), amended: for a configuration passing the dimension,
start-position and gap-ordering checks, the row check succeeds whenever
`pipeRows = pipeGapMax` (the whole validation then succeeds if the colour
is also valid), and the pipe-row reason is reported exactly when
`pipeRows < pipeGapMax`. -/
theorem validateConfig_rowBoundary (cfg : Config)
    (hd : dimsOK cfg) (hs : startOK cfg) (hg : gapOK cfg) :
    (cfg.pipeRows = cfg.pipeGapMax → colorOK cfg → validateConfig cfg = Except.ok true)
    ∧ (cfg.pipeRows < cfg.pipeGapMax →
        validateConfig cfg = Except.error "Invalid pipe row configuration") := by
  constructor
  · intro hb hc
    exact validateConfig_all_ok cfg hd hs hg (by unfold rowsOK; omega) hc
  · intro hlt
    exact validateConfig_err_rows cfg hd hs hg (by unfold rowsOK; omega)

/-- Witness for `validateConfig_rowBoundary` at the boundary
configuration. -/
theorem validateConfig_rowBoundary_witness :
    validateConfig cfgRowEq = Except.ok true :=
  (validateConfig_rowBoundary cfgRowEq
    (by decide) (by decide) (by decide)).1 (by decide) (by decide)

/-- C7 (confirmed): `jump` on a present, alive body sets the vertical
velocity to exactly `GAME_CONFIG.birdJumpVelocity`, which is negative
(`-350`); on an absent or dead body the state is unchanged — a silent
absorbing no-op, with no error possible since `jump` is total. -/
theorem jump_spec :
    (∀ (s : GameState) (b : Body), s.bird = some b → b.alive = true →
        jump s = { s with bird := some { b with velocityY := GAME_CONFIG.birdJumpVelocity } }
        ∧ GAME_CONFIG.birdJumpVelocity = -350
        ∧ GAME_CONFIG.birdJumpVelocity < 0)
    ∧ (∀ s : GameState, s.bird = none → jump s = s)
    ∧ (∀ (s : GameState) (b : Body), s.bird = some b → b.alive = false → jump s = s) := by
  refine ⟨?_, ?_, ?_⟩
  · intro s b hb ha
    refine ⟨?_, rfl, by decide⟩
    simp [jump, hb, ha]
  · intro s hb
    simp [jump, hb]
  · intro s b hb ha
    simp [jump, hb, ha]

/-- Witness for `jump_spec`: jumping from the demo state sets the bird's
vertical velocity to -350. -/
theorem jump_spec_witness :
    jump demoState
      = { demoState with
            bird := some { demoBody with velocityY := GAME_CONFIG.birdJumpVelocity } } :=
  ((jump_spec.1 demoState demoBody rfl rfl).1 : _)

/-- Every pipe produced by the freeze loop that is alive and has a body
carries horizontal velocity 0. -/
theorem freezePipe_velocity (p : Pipe) :
    (freezePipe p).alive = true → (freezePipe p).hasBody = true →
    (freezePipe p).velocityX = 0 := by
  unfold freezePipe
  split
  · intro _ _; rfl
  · intro ha hb
    next h =>
      exact absurd (by simp [ha, hb]) h

/-- C3 (confirmed): starting from an alive body with pool and timer
present, one `hitPipe` call marks the body dead, cancels the timer, and
zeroes the horizontal velocity of every currently-alive obstacle that has
a physics body; a second call returns the state unchanged with an empty
call trace (no timer re-cancellation, no re-iteration of the obstacles);
a call with the body absent or already dead is a silent state-preserving
no-op. -/
theorem hitPipe_idempotent :
    (∀ (s : GameState) (b : Body) (ps : List Pipe),
        s.bird = some b → s.pipes = some ps → b.alive = true → s.timerPresent = true →
        (hitPipe s).1.bird = some { b with alive := false }
        ∧ (hitPipe s).1.timerScheduled = false
        ∧ (hitPipe s).2 = [Ev.timerCancel, Ev.freezeIterate]
        ∧ (hitPipe s).1.pipes = some (ps.map freezePipe)
        ∧ (∀ q ∈ ps.map freezePipe, q.alive = true → q.hasBody = true → q.velocityX = 0)
        ∧ hitPipe (hitPipe s).1 = ((hitPipe s).1, []))
    ∧ (∀ s : GameState, s.bird = none → hitPipe s = (s, []))
    ∧ (∀ (s : GameState) (b : Body), s.bird = some b → b.alive = false →
        hitPipe s = (s, [])) := by
  refine ⟨?_, ?_, ?_⟩
  · intro s b ps hb hp ha ht
    have hfst : hitPipe s
        = ({ s with bird := some { b with alive := false },
                    timerScheduled := false,
                    pipes := some (ps.map freezePipe) },
           [Ev.timerCancel, Ev.freezeIterate]) := by
      simp [hitPipe, hb, hp, ha, ht]
    refine ⟨by rw [hfst], by rw [hfst], by rw [hfst], by rw [hfst], ?_, ?_⟩
    · intro q hq
      rcases List.mem_map.mp hq with ⟨p, _, rfl⟩
      exact freezePipe_velocity p
    · rw [hfst]
      simp [hitPipe]
  · intro s hb
    simp [hitPipe, hb]
  · intro s b hb ha
    cases hp : s.pipes <;> simp [hitPipe, hb, ha, hp]

/-- Witness for `hitPipe_idempotent`: from the demo state, a second
`hitPipe` call is a no-op with an empty trace. -/
theorem hitPipe_idempotent_witness :
    hitPipe (hitPipe demoState).1 = ((hitPipe demoState).1, []) :=
  (hitPipe_idempotent.1 demoState demoBody (demoPipe :: List.replicate 6 deadPipe)
    rfl rfl rfl rfl).2.2.2.2.2

/-- The trace of a `hitPipe` call is one of three concrete shapes. -/
theorem hitPipe_trace_cases (s : GameState) :
    (hitPipe s).2 = [] ∨ (hitPipe s).2 = [Ev.timerCancel, Ev.freezeIterate]
    ∨ (hitPipe s).2 = [Ev.freezeIterate] := by
  unfold hitPipe
  rcases s.bird with _ | b
  · simp
  · rcases s.pipes with _ | ps
    · simp
    · dsimp only
      split_ifs <;> simp

/-- `hitPipe` never emits a rotation event. -/
theorem hitPipe_trace_no_rotate (s : GameState) : Ev.rotate ∉ (hitPipe s).2 := by
  rcases hitPipe_trace_cases s with h | h | h <;> rw [h] <;> decide

/-- `hitPipe` preserves the bird's rotation angle. -/
theorem hitPipe_bird (s : GameState) (b : Body) (hb : s.bird = some b) :
    ∃ b2, (hitPipe s).1.bird = some b2 ∧ b2.angle = b.angle := by
  rcases hp : s.pipes with _ | ps
  · exact ⟨b, by simp [hitPipe, hb, hp], rfl⟩
  · by_cases ha : b.alive = false
    · exact ⟨b, by simp [hitPipe, hb, hp, ha], rfl⟩
    · by_cases ht : s.timerPresent
      · exact ⟨{ b with alive := false }, by simp [hitPipe, hb, hp, ha, ht], rfl⟩
      · exact ⟨{ b with alive := false }, by simp [hitPipe, hb, hp, ha, ht], rfl⟩

/-- After an in-world `update`, the bird's angle is the clamped advance of
its previous angle; out of world it is unchanged.  (The bird survives
every branch of `update`, including the collision and error branches.) -/
theorem update_bird_angle (s : GameState) (b : Body) (ps : List Pipe) (ov : OverlapOutcome)
    (hb : s.bird = some b) (hp : s.pipes = some ps) :
    ∃ b2, (update ov s).1.bird = some b2
      ∧ b2.angle = (if b.inWorld = true then
            (if b.angle < GAME_CONFIG.birdMaxAngle
             then min (b.angle + 1) GAME_CONFIG.birdMaxAngle else b.angle)
          else b.angle) := by
  by_cases hw : b.inWorld = true
  · have hw2 : ¬ (b.inWorld = false) := by simp [hw]
    by_cases hang : b.angle < GAME_CONFIG.birdMaxAngle
    · cases ov with
      | noOverlap =>
        refine ⟨{ b with angle := min (b.angle + 1) GAME_CONFIG.birdMaxAngle }, ?_,
          by simp [hw, hang]⟩
        simp [update, hb, hp, hw2, hang]
      | overlap =>
        obtain ⟨b2, hb2, hang2⟩ := hitPipe_bird
          { s with bird := some { b with angle := min (b.angle + 1) GAME_CONFIG.birdMaxAngle } }
          { b with angle := min (b.angle + 1) GAME_CONFIG.birdMaxAngle } rfl
        refine ⟨b2, ?_, by simp [hw, hang, hang2]⟩
        simpa [update, hb, hp, hw2, hang] using hb2
      | raises =>
        refine ⟨{ b with angle := min (b.angle + 1) GAME_CONFIG.birdMaxAngle }, ?_,
          by simp [hw, hang]⟩
        simp [update, hb, hp, hw2, hang, restartGame]
    · cases ov with
      | noOverlap =>
        refine ⟨b, ?_, by simp [hw, hang]⟩
        simp [update, hb, hp, hw2, hang]
      | overlap =>
        obtain ⟨b2, hb2, hang2⟩ := hitPipe_bird s b hb
        refine ⟨b2, ?_, by simp [hw, hang, hang2]⟩
        simpa [update, hb, hp, hw2, hang] using hb2
      | raises =>
        refine ⟨b, ?_, by simp [hw, hang]⟩
        simp [update, hb, hp, hw2, hang, restartGame]
  · have hw2 : b.inWorld = false := by revert hw; cases b.inWorld <;> simp
    refine ⟨b, ?_, by simp [hw2]⟩
    simp [update, hb, hp, hw2, restartGame]

/-- C2 (corrected), counterexample: with the bird in world at angle 0 and
no overlap, the `update` call trace is rotation first, then the overlap
check — the overlap check does not precede the rotation advance, and the
bird's angle has already advanced to 1 in the same frame. -/
theorem update_order_cex :
    (update OverlapOutcome.noOverlap demoState).2 = [Ev.rotate, Ev.overlapCheck]
    ∧ ¬ ((update OverlapOutcome.noOverlap demoState).2.indexOf Ev.overlapCheck
          < (update OverlapOutcome.noOverlap demoState).2.indexOf Ev.rotate)
    ∧ (update OverlapOutcome.noOverlap demoState).1.bird
        = some { demoBody with angle := 1 } := by
  decide

/-- C2 (corrected), amended: with body and pool present, if the body's
`inWorld` flag is false then `update` invokes restart and performs neither
the rotation advance nor the overlap check that frame (bounds-exit takes
priority over everything); otherwise the rotation advance (when the angle
is below max) happens first and the overlap/collision check happens after
it, never before. -/
theorem update_order (s : GameState) (b : Body) (ps : List Pipe) (ov : OverlapOutcome)
    (hb : s.bird = some b) (hp : s.pipes = some ps) :
    (b.inWorld = false →
        update ov s = ({ s with restartRequested := true }, [Ev.restart]))
    ∧ (b.inWorld = true →
        ∃ t, (update ov s).2
            = (if b.angle < GAME_CONFIG.birdMaxAngle then [Ev.rotate] else [])
              ++ Ev.overlapCheck :: t
          ∧ Ev.rotate ∉ t) := by
  constructor
  · intro hw
    simp [update, hb, hp, hw, restartGame]
  · intro hw
    have hw2 : ¬ (b.inWorld = false) := by simp [hw]
    cases ov with
    | noOverlap =>
      refine ⟨[], ?_, by simp⟩
      by_cases hang : b.angle < GAME_CONFIG.birdMaxAngle <;>
        simp [update, hb, hp, hw2, hang]
    | overlap =>
      by_cases hang : b.angle < GAME_CONFIG.birdMaxAngle
      · refine ⟨(hitPipe { s with bird := some { b with angle := min (b.angle + 1) GAME_CONFIG.birdMaxAngle } }).2, ?_, hitPipe_trace_no_rotate _⟩
        simp [update, hb, hp, hw2, hang]
      · refine ⟨(hitPipe s).2, ?_, hitPipe_trace_no_rotate _⟩
        simp [update, hb, hp, hw2, hang]
    | raises =>
      refine ⟨[Ev.restart], ?_, by decide⟩
      by_cases hang : b.angle < GAME_CONFIG.birdMaxAngle <;>
        simp [update, hb, hp, hw2, hang]

/-- Witness for `update_order`: the out-of-world branch at a concrete
state restarts with a bare `[restart]` trace. -/
theorem update_order_witness :
    update OverlapOutcome.noOverlap { demoState with bird := some { demoBody with inWorld := false } }
      = ({ demoState with bird := some { demoBody with inWorld := false },
                          restartRequested := true },
         [Ev.restart]) :=
  (update_order { demoState with bird := some { demoBody with inWorld := false } }
    { demoBody with inWorld := false } (demoPipe :: List.replicate 6 deadPipe)
    OverlapOutcome.noOverlap rfl rfl).1 rfl

/-- C8 (confirmed): when the overlap query raises during an in-world frame
(body and pool present), `update` catches the error and invokes
`restartGame`; `update` is a total function, so no exception propagates —
the frame ends with the restart requested and the trace records the
rotation (if any), the attempted overlap check, and the restart. -/
theorem update_error_recovery (s : GameState) (b : Body) (ps : List Pipe)
    (hb : s.bird = some b) (hp : s.pipes = some ps) (hw : b.inWorld = true) :
    (update OverlapOutcome.raises s).1.restartRequested = true
    ∧ Ev.restart ∈ (update OverlapOutcome.raises s).2
    ∧ (update OverlapOutcome.raises s).2
        = (if b.angle < GAME_CONFIG.birdMaxAngle then [Ev.rotate] else [])
          ++ [Ev.overlapCheck, Ev.restart] := by
  have hw2 : ¬ (b.inWorld = false) := by simp [hw]
  by_cases hang : b.angle < GAME_CONFIG.birdMaxAngle <;>
    refine ⟨?_, ?_, ?_⟩ <;> simp [update, hb, hp, hw2, hang, restartGame]

/-- Witness for `update_error_recovery` at the demo state. -/
theorem update_error_recovery_witness :
    (update OverlapOutcome.raises demoState).1.restartRequested = true :=
  (update_error_recovery demoState demoBody (demoPipe :: List.replicate 6 deadPipe)
    rfl rfl rfl).1

/-- C9 (confirmed): in an in-world frame with the body alive and the angle
below `birdMaxAngle`, the angle advances by exactly 1; whenever the angle
starts at most `birdMaxAngle` it stays at most `birdMaxAngle` (the advance
is clamped); and membership in `[birdMinAngle, birdMaxAngle]` is preserved
by every `update`, whatever the overlap outcome. -/
theorem update_angle_spec (s : GameState) (b : Body) (ps : List Pipe) (ov : OverlapOutcome)
    (hb : s.bird = some b) (hp : s.pipes = some ps) :
    ∃ b2, (update ov s).1.bird = some b2
      ∧ (b.inWorld = true → b.alive = true → b.angle < GAME_CONFIG.birdMaxAngle →
          b2.angle = b.angle + 1)
      ∧ (b.angle ≤ GAME_CONFIG.birdMaxAngle → b2.angle ≤ GAME_CONFIG.birdMaxAngle)
      ∧ (GAME_CONFIG.birdMinAngle ≤ b.angle ∧ b.angle ≤ GAME_CONFIG.birdMaxAngle →
          GAME_CONFIG.birdMinAngle ≤ b2.angle ∧ b2.angle ≤ GAME_CONFIG.birdMaxAngle) := by
  obtain ⟨b2, hb2, hangle⟩ := update_bird_angle s b ps ov hb hp
  have hmax : GAME_CONFIG.birdMaxAngle = 20 := rfl
  have hmin : GAME_CONFIG.birdMinAngle = -20 := rfl
  refine ⟨b2, hb2, ?_, ?_, ?_⟩
  · intro hw _ hlt
    rw [hangle, if_pos hw, if_pos hlt, hmax] at *
    omega
  · intro hle
    rw [hangle]
    split_ifs <;> rw [hmax] at * <;> omega
  · intro hrange
    rw [hangle]
    split_ifs <;> rw [hmax, hmin] at * <;> constructor <;> omega

/-- Witness for `update_angle_spec`: from angle 0 the demo update advances
the angle to 1. -/
theorem update_angle_spec_witness :
    ∃ b2, (update OverlapOutcome.noOverlap demoState).1.bird = some b2
      ∧ (demoBody.inWorld = true → demoBody.alive = true →
          demoBody.angle < GAME_CONFIG.birdMaxAngle → b2.angle = demoBody.angle + 1)
      ∧ (demoBody.angle ≤ GAME_CONFIG.birdMaxAngle → b2.angle ≤ GAME_CONFIG.birdMaxAngle)
      ∧ (GAME_CONFIG.birdMinAngle ≤ demoBody.angle ∧ demoBody.angle ≤ GAME_CONFIG.birdMaxAngle →
          GAME_CONFIG.birdMinAngle ≤ b2.angle ∧ b2.angle ≤ GAME_CONFIG.birdMaxAngle) :=
  update_angle_spec demoState demoBody (demoPipe :: List.replicate 6 deadPipe)
    OverlapOutcome.noOverlap rfl rfl

/-- A pool with a dead pipe yields one: the acquisition succeeds and
consumes exactly one dead slot. -/
theorem resetFirstDead_spec (x y : Int) (ps : List Pipe) (h : 0 < countDead ps) :
    ∃ ps2, resetFirstDead x y ps = some ps2 ∧ countDead ps2 = countDead ps - 1 := by
  induction ps with
  | nil => simp [countDead] at h
  | cons p rest ih =>
    by_cases ha : p.alive = true
    · have hcd : countDead (p :: rest) = countDead rest := by
        simp [countDead, List.filter_cons, ha]
      rw [hcd] at h
      obtain ⟨ps2, hr, hc⟩ := ih h
      refine ⟨p :: ps2, ?_, ?_⟩
      · simp [resetFirstDead, ha, hr]
      · have : countDead (p :: ps2) = countDead ps2 := by
          simp [countDead, List.filter_cons, ha]
        rw [this, hc, hcd]
    · have ha2 : p.alive = false := by revert ha; cases p.alive <;> simp
      refine ⟨resetPipe x y p :: rest, ?_, ?_⟩
      · simp [resetFirstDead, ha2]
      · simp [countDead, List.filter_cons, ha2, resetPipe]

/-- A pool with no dead pipe yields nothing. -/
theorem resetFirstDead_none (x y : Int) (ps : List Pipe) (h : countDead ps = 0) :
    resetFirstDead x y ps = none := by
  induction ps with
  | nil => rfl
  | cons p rest ih =>
    by_cases ha : p.alive = true
    · have hrest : countDead rest = 0 := by
        simpa [countDead, List.filter_cons, ha] using h
      simp [resetFirstDead, ha, ih hrest]
    · have ha2 : p.alive = false := by revert ha; cases p.alive <;> simp
      exfalso
      simp [countDead, List.filter_cons, ha2] at h

/-- `addOnePipe` touches only the pipe pool. -/
theorem addOnePipe_preserve (x y : Int) (s : GameState) :
    (addOnePipe x y s).1.score = s.score
    ∧ (addOnePipe x y s).1.labelScore = s.labelScore := by
  rcases hp : s.pipes with _ | ps
  · simp [addOnePipe, hp]
  · cases hr : resetFirstDead x y ps <;> simp [addOnePipe, hp, hr]

/-- With enough dead pipes, the spawn loop succeeds at every attempted
position: the trace equals the attempted positions and each spawn
consumed one dead slot. -/
theorem spawnMany_full (pos : List (Int × Int)) :
    ∀ (s : GameState) (ps : List Pipe), s.pipes = some ps → pos.length ≤ countDead ps →
      (spawnMany pos s).2 = pos
      ∧ ∃ ps2, (spawnMany pos s).1.pipes = some ps2
          ∧ countDead ps2 = countDead ps - pos.length := by
  induction pos with
  | nil =>
    intro s ps hp _
    exact ⟨rfl, ps, hp, by simp⟩
  | cons xy rest ih =>
    intro s ps hp hlen
    have hpos : 0 < countDead ps := by
      simp only [List.length_cons] at hlen
      omega
    obtain ⟨ps2, hr, hc⟩ := resetFirstDead_spec xy.1 xy.2 ps hpos
    have haop : addOnePipe xy.1 xy.2 s = ({ s with pipes := some ps2 }, some (xy.1, xy.2)) := by
      simp [addOnePipe, hp, hr]
    have hlen2 : rest.length ≤ countDead ps2 := by
      simp only [List.length_cons] at hlen
      omega
    obtain ⟨htr, ps3, hp3, hc3⟩ := ih { s with pipes := some ps2 } ps2 rfl hlen2
    refine ⟨?_, ps3, ?_, ?_⟩
    · simp [spawnMany, haop, htr]
    · simp [spawnMany, haop, hp3]
    · simp only [List.length_cons]
      rw [hc] at hc3
      omega

/-- The spawn loop never touches the score or the score label. -/
theorem spawnMany_state_fields (pos : List (Int × Int)) :
    ∀ s : GameState, (spawnMany pos s).1.score = s.score
      ∧ (spawnMany pos s).1.labelScore = s.labelScore := by
  induction pos with
  | nil => intro s; exact ⟨rfl, rfl⟩
  | cons xy rest ih =>
    intro s
    have h1 := addOnePipe_preserve xy.1 xy.2 s
    have h2 := ih (addOnePipe xy.1 xy.2 s).1
    have hfst : (spawnMany (xy :: rest) s).1
        = (spawnMany rest (addOnePipe xy.1 xy.2 s).1).1 := by
      cases hr : (addOnePipe xy.1 xy.2 s).2 <;> simp [spawnMany, hr]
    rw [hfst]
    exact ⟨h2.1.trans h1.1, h2.2.trans h1.2⟩

/-- With the pool absent or exhausted, the spawn loop is a no-op with an
empty trace. -/
theorem spawnMany_noSpawn (pos : List (Int × Int)) :
    ∀ s : GameState, (s.pipes = none ∨ ∃ ps, s.pipes = some ps ∧ countDead ps = 0) →
      spawnMany pos s = (s, []) := by
  induction pos with
  | nil => intro s _; rfl
  | cons xy rest ih =>
    intro s hs
    have haop : addOnePipe xy.1 xy.2 s = (s, none) := by
      rcases hs with hnone | ⟨ps, hp, hc⟩
      · simp [addOnePipe, hnone]
      · simp [addOnePipe, hp, resetFirstDead_none xy.1 xy.2 ps hc]
    simp [spawnMany, haop, ih s hs]

/-- For every gap index in `[pipeGapMin, pipeGapMax]` the spawn loop
attempts exactly `pipeRows - 2 = 6` positions. -/
theorem rowPositions_length (hole : Int) (h1 : (1 : Int) ≤ hole) (h2 : hole ≤ (5 : Int)) :
    (rowPositions hole).length = 6 := by
  interval_cases hole <;> decide

/-- C4 (confirmed): when the score label is present and the pool yields an
obstacle on every acquisition (at least the needed 6 dead pipes), there is
a gap index `h` in `[pipeGapMin, pipeGapMax]` such that the spawn trace is
exactly one obstacle per row index `i < pipeRows` with `i ≠ h` and
`i ≠ h + 1`, at `x = width` and `y = i·spacing + offset` — hence exactly
`pipeRows - 2` obstacles, with every `y` in
`[0, (pipeRows-1)·spacing + offset]`. -/
theorem addRowOfPipes_spawn_pattern (s : GameState) (hole : Int) (lbl : String) (ps : List Pipe)
    (hl : s.labelScore = some lbl) (hp : s.pipes = some ps)
    (h1 : GAME_CONFIG.pipeGapMin ≤ hole) (h2 : hole ≤ GAME_CONFIG.pipeGapMax)
    (hd : 6 ≤ countDead ps) :
    ∃ h, GAME_CONFIG.pipeGapMin ≤ h ∧ h ≤ GAME_CONFIG.pipeGapMax
      ∧ (addRowOfPipes hole s).2 = rowPositions h
      ∧ (addRowOfPipes hole s).2.length = GAME_CONFIG.pipeRows.toNat - 2
      ∧ (∀ i : Nat, i < GAME_CONFIG.pipeRows.toNat → (i : Int) ≠ h → (i : Int) ≠ h + 1 →
          (GAME_CONFIG.width, (i : Int) * GAME_CONFIG.pipeSpacing + GAME_CONFIG.pipeOffset)
            ∈ (addRowOfPipes hole s).2)
      ∧ (∀ xy ∈ (addRowOfPipes hole s).2,
          xy.1 = GAME_CONFIG.width ∧ 0 ≤ xy.2
          ∧ xy.2 ≤ (GAME_CONFIG.pipeRows - 1) * GAME_CONFIG.pipeSpacing + GAME_CONFIG.pipeOffset) := by
  have h1n : (1 : Int) ≤ hole := h1
  have h2n : hole ≤ (5 : Int) := h2
  have hlen : (rowPositions hole).length ≤ countDead ps := by
    rw [rowPositions_length hole h1n h2n]
    exact hd
  have htr : (addRowOfPipes hole s).2 = rowPositions hole := by
    have h0 := (spawnMany_full (rowPositions hole) s ps hp hlen).1
    simpa [addRowOfPipes, hl] using h0
  refine ⟨hole, h1, h2, htr, ?_, ?_, ?_⟩
  · rw [htr, rowPositions_length hole h1n h2n]
    decide
  · intro i hi hne1 hne2
    rw [htr]
    unfold rowPositions
    rw [List.mem_filterMap]
    refine ⟨i, List.mem_range.mpr hi, ?_⟩
    rw [if_pos ⟨hne1, hne2⟩]
  · intro xy hxy
    rw [htr] at hxy
    unfold rowPositions at hxy
    rw [List.mem_filterMap] at hxy
    rcases hxy with ⟨i, hir, hif⟩
    have hi8 : i < GAME_CONFIG.pipeRows.toNat := List.mem_range.mp hir
    by_cases hc : ((i : Int) ≠ hole ∧ (i : Int) ≠ hole + 1)
    · rw [if_pos hc] at hif
      have hxy2 : xy = (GAME_CONFIG.width,
          (i : Int) * GAME_CONFIG.pipeSpacing + GAME_CONFIG.pipeOffset) :=
        (Option.some_inj.mp hif).symm
      subst hxy2
      refine ⟨rfl, ?_, ?_⟩
      · show (0 : Int) ≤ (i : Int) * GAME_CONFIG.pipeSpacing + GAME_CONFIG.pipeOffset
        have hsp : GAME_CONFIG.pipeSpacing = 60 := rfl
        have hoff : GAME_CONFIG.pipeOffset = 10 := rfl
        rw [hsp, hoff]
        omega
      · show (i : Int) * GAME_CONFIG.pipeSpacing + GAME_CONFIG.pipeOffset
            ≤ (GAME_CONFIG.pipeRows - 1) * GAME_CONFIG.pipeSpacing + GAME_CONFIG.pipeOffset
        have hsp : GAME_CONFIG.pipeSpacing = 60 := rfl
        have hoff : GAME_CONFIG.pipeOffset = 10 := rfl
        have hrows : GAME_CONFIG.pipeRows = 8 := rfl
        have hi8n : i < 8 := hi8
        rw [hsp, hoff, hrows]
        omega
    · rw [if_neg hc] at hif
      exact absurd hif (by simp)

/-- Witness for `addRowOfPipes_spawn_pattern` at the demo state with
`hole = 3`. -/
theorem addRowOfPipes_spawn_pattern_witness :
    ∃ h, GAME_CONFIG.pipeGapMin ≤ h ∧ h ≤ GAME_CONFIG.pipeGapMax
      ∧ (addRowOfPipes 3 demoState).2 = rowPositions h
      ∧ (addRowOfPipes 3 demoState).2.length = GAME_CONFIG.pipeRows.toNat - 2
      ∧ (∀ i : Nat, i < GAME_CONFIG.pipeRows.toNat → (i : Int) ≠ h → (i : Int) ≠ h + 1 →
          (GAME_CONFIG.width, (i : Int) * GAME_CONFIG.pipeSpacing + GAME_CONFIG.pipeOffset)
            ∈ (addRowOfPipes 3 demoState).2)
      ∧ (∀ xy ∈ (addRowOfPipes 3 demoState).2,
          xy.1 = GAME_CONFIG.width ∧ 0 ≤ xy.2
          ∧ xy.2 ≤ (GAME_CONFIG.pipeRows - 1) * GAME_CONFIG.pipeSpacing + GAME_CONFIG.pipeOffset) :=
  addRowOfPipes_spawn_pattern demoState 3 "0" (demoPipe :: List.replicate 6 deadPipe)
    rfl rfl (by decide) (by decide) (by decide)

/-- C5 (confirmed): with the score label present, the new score is the
numeric coercion of the prior score plus 1 (a non-numeric/NaN prior score
counts as 0, so it becomes 1; a numeric prior score `n` becomes `n + 1`),
and the label text is set to the sanitized (tag-stripped) string of the
new integer score — the stored score is always a genuine number, never a
NaN. -/
theorem addRowOfPipes_score_spec (s : GameState) (hole : Int) (lbl : String)
    (hl : s.labelScore = some lbl) :
    (addRowOfPipes hole s).1.score = JSValue.num (jsOrZero s.score + 1)
    ∧ (addRowOfPipes hole s).1.labelScore
        = some (sanitizeScore (toString (jsOrZero s.score + 1)))
    ∧ (∀ n : Int, s.score = JSValue.num n →
        (addRowOfPipes hole s).1.score = JSValue.num (n + 1))
    ∧ (s.score = JSValue.nonNumeric → (addRowOfPipes hole s).1.score = JSValue.num 1) := by
  have hsc := (spawnMany_state_fields (rowPositions hole) s).1
  have h1 : (addRowOfPipes hole s).1.score = JSValue.num (jsOrZero s.score + 1) := by
    simp [addRowOfPipes, hl, hsc]
  have h2 : (addRowOfPipes hole s).1.labelScore
      = some (sanitizeScore (toString (jsOrZero s.score + 1))) := by
    simp [addRowOfPipes, hl, hsc]
  refine ⟨h1, h2, ?_, ?_⟩
  · intro n hn
    rw [h1, hn]
    simp [jsOrZero]
  · intro hn
    rw [h1, hn]
    decide

/-- Witness for `addRowOfPipes_score_spec`: one call from score 0 gives
score 1. -/
theorem addRowOfPipes_score_spec_witness :
    (addRowOfPipes 3 demoState).1.score = JSValue.num (jsOrZero demoState.score + 1) :=
  (addRowOfPipes_score_spec demoState 3 "0" rfl).1

/-- C10 (confirmed): as long as the score label exists, `addRowOfPipes`
increments the score by 1 and refreshes the label even when nothing at all
is spawned — the pool object absent, or every pool acquisition returning
none (no dead pipe): the score increment is unconditional on spawning
success. -/
theorem addRowOfPipes_score_unconditional (s : GameState) (hole : Int) (lbl : String)
    (hl : s.labelScore = some lbl)
    (hnp : s.pipes = none ∨ ∃ ps, s.pipes = some ps ∧ countDead ps = 0) :
    (addRowOfPipes hole s).2 = []
    ∧ (addRowOfPipes hole s).1.score = JSValue.num (jsOrZero s.score + 1)
    ∧ (addRowOfPipes hole s).1.labelScore
        = some (sanitizeScore (toString (jsOrZero s.score + 1))) := by
  have hsp := spawnMany_noSpawn (rowPositions hole) s hnp
  refine ⟨?_, ?_, ?_⟩ <;> simp [addRowOfPipes, hl, hsp]

/-- Witness for `addRowOfPipes_score_unconditional`: with the pool object
absent the call spawns nothing yet still increments the score to 1. -/
theorem addRowOfPipes_score_unconditional_witness :
    (addRowOfPipes 3 { demoState with pipes := none }).2 = []
    ∧ (addRowOfPipes 3 { demoState with pipes := none }).1.score
        = JSValue.num (jsOrZero ({ demoState with pipes := none } : GameState).score + 1)
    ∧ (addRowOfPipes 3 { demoState with pipes := none }).1.labelScore
        = some (sanitizeScore (toString (jsOrZero ({ demoState with pipes := none } : GameState).score + 1))) :=
  addRowOfPipes_score_unconditional { demoState with pipes := none } 3 "0" rfl (Or.inl rfl)

end Flappy
